import Mathlib

/-!
Verification of the build orchestration script (build.py) of rust_go_ffi.

The script's pure text-processing core (generate_def_content) is embedded
directly over lists of characters; the stateful pipeline (subprocess
invocations, filesystem staging, retries, cleaning) is embedded as event
traces over an oracle World that fixes the outcome of every external
interaction (subprocess exit status, file existence, copy/unlink success).
-/

namespace BuildPy

/-! ## Python string primitives used by generate_def_content -/

/-- Whitespace characters recognised by Python str.split() on ASCII text. -/
def isPySpace (c : Char) : Bool :=
  c = ' ' || c = '\t' || c = '\n' || c = '\r' || c = '\x0b' || c = '\x0c'

/-- Worker for whitespace splitting: acc holds the current token reversed. -/
def splitWsAux : List Char → List Char → List (List Char)
  | [], acc => if acc.isEmpty then [] else [acc.reverse]
  | c :: cs, acc =>
    if isPySpace c then
      if acc.isEmpty then splitWsAux cs [] else acc.reverse :: splitWsAux cs []
    else
      splitWsAux cs (c :: acc)

/-- Python str.split() with no argument: split on runs of whitespace,
never producing empty tokens. -/
def pySplit (line : List Char) : List (List Char) := splitWsAux line []

/-- Python str.isdigit() on ASCII text: nonempty and all decimal digits. -/
def pyIsdigit (t : List Char) : Bool := !t.isEmpty && t.all (fun c => c.isDigit)

/-- Worker for Python str.splitlines(): splits on LF, CR and CRLF,
with no trailing empty line for input ending in a line break. -/
def splitlinesAux : List Char → List Char → List (List Char)
  | [], acc => if acc.isEmpty then [] else [acc.reverse]
  | '\r' :: '\n' :: cs, acc => acc.reverse :: splitlinesAux cs []
  | '\n' :: cs, acc => acc.reverse :: splitlinesAux cs []
  | '\r' :: cs, acc => acc.reverse :: splitlinesAux cs []
  | c :: cs, acc => splitlinesAux cs (c :: acc)

/-- Python str.splitlines() on ASCII text. -/
def pySplitlines (s : List Char) : List (List Char) := splitlinesAux s []

/-! ## generate_def_content (build.py lines 121-133) -/

/-- The qualification test of the loop body:
len(parts) > 3 and parts[0].isdigit(). -/
def qualifies (line : List Char) : Bool :=
  let parts := pySplit line
  decide (3 < parts.length) && pyIsdigit (parts.getD 0 [])

/-- The extraction of the loop body: parts[3]. -/
def symbolOf (line : List Char) : List Char := (pySplit line).getD 3 []

/-- The for-loop of generate_def_content: append parts[3] for each
qualifying line, in input order. -/
def defBody : List (List Char) → List (List Char)
  | [] => []
  | l :: ls => if qualifies l then symbolOf l :: defBody ls else defBody ls

/-- Python "\n".join. -/
def joinNL : List (List Char) → List Char
  | [] => []
  | [x] => x
  | x :: xs => x ++ '\n' :: joinNL xs

/-- generate_def_content(dumpbin_output): header line EXPORTS followed by
the extracted symbol names, newline-joined. -/
def generate_def_content (dumpbin_output : String) : String :=
  ⟨joinNL ("EXPORTS".data :: defBody (pySplitlines dumpbin_output.data))⟩

/-! ## Constants and paths (build.py lines 36-48), as plain strings -/

def FFI_DIR : String := "go_lib"
def EXPORT_NAME : String := "go_lib"
def EXPORT_DLL : String := FFI_DIR ++ "/" ++ EXPORT_NAME ++ ".dll"
def EXPORT_DEF : String := FFI_DIR ++ "/" ++ EXPORT_NAME ++ ".def"
def EXPORT_LIB : String := FFI_DIR ++ "/" ++ EXPORT_NAME ++ ".lib"
def TARGET_DIR : String := "target/debug"
def TARGET_DLL : String := TARGET_DIR ++ "/" ++ EXPORT_NAME ++ ".dll"
def TEST_DIRS : List String := ["target/debug/deps", "target/debug"]

/-! ## Observable events of a run -/

/-- Externally observable actions of the script: subprocess invocations,
directory creation, file copies (with outcome), sleeps, file writes and
file deletions (with outcome). -/
inductive Ev where
  | runCmd (cmd : List String)
  | mkdirp (dir : String)
  | copy2 (src dst : String) (ok : Bool)
  | sleep (secs : ℚ)
  | writeOut (path content : String)
  | unlink (path : String) (ok : Bool)
  deriving DecidableEq

/-- Oracle fixing the outcome of every external interaction of one run. -/
structure World where
  ffiDirExists : Bool
  goModExists : Bool
  goModInitOk : Bool
  goBuildOk : Bool
  dllBuilt : Bool
  dumpbinOk : Bool
  dumpbinOut : String
  defWriteOk : Bool
  dlltoolOk : Bool
  primaryCopyOk : Bool
  auxCopyOk : String → Nat → Bool
  fileExists : String → Bool
  unlinkOk : String → Bool
  cargoCleanOk : Bool

/-- A fully cooperative world, used to instantiate theorems. -/
def allOkWorld : World :=
  { ffiDirExists := true
    goModExists := true
    goModInitOk := true
    goBuildOk := true
    dllBuilt := true
    dumpbinOk := true
    dumpbinOut := ""
    defWriteOk := true
    dlltoolOk := true
    primaryCopyOk := true
    auxCopyOk := fun _ _ => true
    fileExists := fun _ => true
    unlinkOk := fun _ => true
    cargoCleanOk := true }

/-! ## Pipeline stages as trace-producing functions.
Each stage returns its event trace and a Bool: true when the stage
completed, false when it called sys.exit(1) (or raised to a fatal
handler). -/

/-- ensure_dirs (lines 63-69): create FFI_DIR when absent. -/
def ensure_dirs (w : World) : List Ev × Bool :=
  if w.ffiDirExists then ([], true) else ([Ev.mkdirp FFI_DIR], true)

/-- go_mod_init (lines 72-87): skip when go.mod exists, otherwise run the
module-init command. Also returns the post-state world. The success branch
sets goModExists. Modelled from the spec: the module-init command creates
the marker file as a side effect (spec section 6, external collaborators);
the skip-if-present logic itself is from build.py. -/
def go_mod_init (w : World) : List Ev × World × Bool :=
  if w.goModExists then ([], w, true)
  else if w.goModInitOk then
    ([Ev.runCmd ["go", "mod", "init", "whatsmeow-ffi"]],
      { w with goModExists := true }, true)
  else ([Ev.runCmd ["go", "mod", "init", "whatsmeow-ffi"]], w, false)

/-- The go build command line (lines 99-109). -/
def goBuildCmd : List String :=
  ["go", "build", "-buildmode=c-shared", "-o", "go_lib.dll", "go_lib.go"]

/-- go_build (lines 90-118): run the build command; fatal if it fails,
and also fatal if EXPORT_DLL does not exist afterwards. -/
def go_build (w : World) : List Ev × Bool :=
  if w.goBuildOk then
    if w.dllBuilt then ([Ev.runCmd goBuildCmd], true)
    else ([Ev.runCmd goBuildCmd], false)
  else ([Ev.runCmd goBuildCmd], false)

/-- generate_def (lines 136-160): run dumpbin, then write the DEF file
with generate_def_content of its stdout; either failure is fatal. -/
def generate_def (w : World) : List Ev × Bool :=
  if w.dumpbinOk then
    if w.defWriteOk then
      ([Ev.runCmd ["dumpbin", "/exports", "go_lib.dll"],
        Ev.writeOut EXPORT_DEF (generate_def_content w.dumpbinOut)], true)
    else ([Ev.runCmd ["dumpbin", "/exports", "go_lib.dll"]], false)
  else ([Ev.runCmd ["dumpbin", "/exports", "go_lib.dll"]], false)

/-- The dlltool command line (lines 170-179). -/
def dlltoolCmd : List String :=
  ["dlltool", "-d", "go_lib.def", "-D", "go_lib.dll", "-l", "go_lib.lib"]

/-- generate_lib (lines 163-185): run dlltool; nonzero exit is fatal. -/
def generate_lib (w : World) : List Ev × Bool :=
  ([Ev.runCmd dlltoolCmd], w.dlltoolOk)

/-- The loop of copy_with_retry (lines 192-214) over the remaining attempt
numbers. On success return; on failure of a non-final attempt sleep
0.1 * attempt and retry; on failure of the final attempt re-raise. -/
def copyLoop (ok : Nat → Bool) (retries : Nat) (src dst : String) :
    List Nat → List Ev × Bool
  | [] => ([], true)
  | a :: rest =>
    if ok a then ([Ev.copy2 src dst true], true)
    else if a < retries then
      let r := copyLoop ok retries src dst rest
      (Ev.copy2 src dst false :: Ev.sleep (0.1 * a) :: r.1, r.2)
    else ([Ev.copy2 src dst false], false)

/-- copy_with_retry (lines 188-214): attempts numbered 1..retries. The
oracle ok gives the outcome of each attempt. -/
def copy_with_retry (ok : Nat → Bool) (src dst : String) (retries : Nat) :
    List Ev × Bool :=
  copyLoop ok retries src dst (List.range' 1 retries)

/-- copy_dll (lines 217-228): mkdir the target directory and copy once;
any failure is fatal, no retry. -/
def copy_dll (w : World) : List Ev × Bool :=
  ([Ev.mkdirp TARGET_DIR, Ev.copy2 EXPORT_DLL TARGET_DLL w.primaryCopyOk],
    w.primaryCopyOk)

/-- The loop of copy_dll_to_test_dir over the test directories: mkdir,
retried copy; exhausted retries are fatal. -/
def copyTestLoop (w : World) : List String → List Ev × Bool
  | [] => ([], true)
  | d :: rest =>
    let r := copy_with_retry (w.auxCopyOk d) EXPORT_DLL
      (d ++ "/" ++ EXPORT_NAME ++ ".dll") 5
    if r.2 then
      let rr := copyTestLoop w rest
      (Ev.mkdirp d :: r.1 ++ rr.1, rr.2)
    else (Ev.mkdirp d :: r.1, false)

/-- copy_dll_to_test_dir (lines 231-245). -/
def copy_dll_to_test_dir (w : World) : List Ev × Bool :=
  copyTestLoop w TEST_DIRS

/-- The deletion loop of clean (lines 266-272): delete each existing
artifact, continuing past failures. -/
def cleanLoop (w : World) : List String → List Ev
  | [] => []
  | p :: rest =>
    if w.fileExists p then Ev.unlink p (w.unlinkOk p) :: cleanLoop w rest
    else cleanLoop w rest

/-- clean (lines 261-278): delete the three artifacts, then run
cargo clean; nonzero exit of cargo clean is fatal. -/
def clean (w : World) : List Ev × Bool :=
  (cleanLoop w [EXPORT_DLL, EXPORT_DEF, EXPORT_LIB] ++
    [Ev.runCmd ["cargo", "clean"]], w.cargoCleanOk)

/-- build_all (lines 281-292): the full pipeline with fail-fast
sequencing (cargo_build is commented out in the source). -/
def build_all (w : World) : List Ev × Bool :=
  let e0 := (ensure_dirs w).1
  let m := go_mod_init w
  if m.2.2 then
    let w1 := m.2.1
    let b := go_build w1
    if b.2 then
      let g := generate_def w1
      if g.2 then
        let l := generate_lib w1
        if l.2 then
          let c := copy_dll w1
          if c.2 then
            let t := copy_dll_to_test_dir w1
            (e0 ++ m.1 ++ b.1 ++ g.1 ++ l.1 ++ c.1 ++ t.1, t.2)
          else (e0 ++ m.1 ++ b.1 ++ g.1 ++ l.1 ++ c.1, false)
        else (e0 ++ m.1 ++ b.1 ++ g.1 ++ l.1, false)
      else (e0 ++ m.1 ++ b.1 ++ g.1, false)
    else (e0 ++ m.1 ++ b.1, false)
  else (e0 ++ m.1, false)

/-- main (lines 310-315): clean mode when the flag is set, otherwise
build mode. -/
def main (w : World) (cleanFlag : Bool) : List Ev × Bool :=
  if cleanFlag then clean w else build_all w

/-! ## Event classifiers -/

def isCopyEv : Ev → Bool
  | Ev.copy2 _ _ _ => true
  | _ => false

def isSleepEv : Ev → Bool
  | Ev.sleep _ => true
  | _ => false

def isUnlinkEv : Ev → Bool
  | Ev.unlink _ _ => true
  | _ => false

def isMkdirEv : Ev → Bool
  | Ev.mkdirp _ => true
  | _ => false

def isWriteEv : Ev → Bool
  | Ev.writeOut _ _ => true
  | _ => false

/-- The commands invoked in a trace, in order. -/
def runCmdsOf (evs : List Ev) : List (List String) :=
  evs.filterMap fun e => match e with
    | Ev.runCmd c => some c
    | _ => none

/-- The sleep durations of a trace, in order. -/
def sleepSecsOf (evs : List Ev) : List ℚ :=
  evs.filterMap fun e => match e with
    | Ev.sleep q => some q
    | _ => none

/-- Number of successful copies landing at dst in a trace. -/
def succCopiesTo (dst : String) (evs : List Ev) : Nat :=
  (evs.filter fun e => match e with
    | Ev.copy2 _ d ok => d = dst && ok
    | _ => false).length

/-! ## Claim-side (specification) definitions, written from the spec's
words, to be compared with the embeddings above -/

/-- Spec-side export list: a line contributes iff splitting on whitespace
yields more than 3 tokens and its first token consists entirely of decimal
digits; the contributed name is the token at index 3; input order kept. -/
def specExportNames (s : String) : List (List Char) :=
  ((pySplitlines s.data).filter fun l =>
      decide (3 < (pySplit l).length) &&
        ((pySplit l).getD 0 []).all (fun c => c.isDigit)).map
    fun l => (pySplit l).getD 3 []

/-- Spec-side trace of the auxiliary copy with 5 attempts: try up to 5
times, sleep 0.1 * attempt after each failed non-final attempt, re-raise
only after the 5th failure. -/
def claimTrace (ok : Nat → Bool) (src dst : String) : List Ev × Bool :=
  let fails := [1, 2, 3, 4, 5].takeWhile fun a => ok a = false
  if fails.length = 5 then
    (((fails.take 4).map fun a =>
        [Ev.copy2 src dst false, Ev.sleep (0.1 * a)]).flatten ++
      [Ev.copy2 src dst false], false)
  else
    ((fails.map fun a =>
        [Ev.copy2 src dst false, Ev.sleep (0.1 * a)]).flatten ++
      [Ev.copy2 src dst true], true)

end BuildPy

namespace BuildPy

/-! ## Lemmas about the string primitives -/

lemma getD_mem {α : Type} (l : List α) (n : ℕ) (d : α) (h : n < l.length) :
    l.getD n d ∈ l := by
  induction l generalizing n with
  | nil => simp at h
  | cons a t ih =>
    cases n with
    | zero => simp
    | succ m =>
      rw [List.getD_cons_succ]
      exact List.mem_cons_of_mem _ (ih m (by simpa using h))

/-- Every token produced by the whitespace splitter is nonempty and free
of whitespace characters. -/
lemma splitWsAux_mem (cs : List Char) :
    ∀ (acc : List Char), (∀ c ∈ acc, isPySpace c = false) →
      ∀ t ∈ splitWsAux cs acc, t ≠ [] ∧ ∀ c ∈ t, isPySpace c = false := by
  induction cs with
  | nil =>
    intro acc hacc t ht
    rw [splitWsAux] at ht
    by_cases h : acc.isEmpty
    · rw [if_pos h] at ht
      simp at ht
    · rw [if_neg h] at ht
      rw [List.mem_singleton] at ht
      subst ht
      refine ⟨?_, ?_⟩
      · simp only [ne_eq, List.reverse_eq_nil_iff]
        exact fun hnil => h (List.isEmpty_iff.mpr hnil)
      · intro c hc
        exact hacc c (List.mem_reverse.mp hc)
  | cons c cs ih =>
    intro acc hacc t ht
    rw [splitWsAux] at ht
    by_cases hsp : isPySpace c
    · rw [if_pos hsp] at ht
      by_cases hacc0 : acc.isEmpty
      · rw [if_pos hacc0] at ht
        exact ih [] (by simp) t ht
      · rw [if_neg hacc0, List.mem_cons] at ht
        rcases ht with ht | ht
        · subst ht
          refine ⟨?_, ?_⟩
          · simp only [ne_eq, List.reverse_eq_nil_iff]
            exact fun hnil => hacc0 (List.isEmpty_iff.mpr hnil)
          · intro x hx
            exact hacc x (List.mem_reverse.mp hx)
        · exact ih [] (by simp) t ht
    · rw [if_neg hsp] at ht
      refine ih (c :: acc) ?_ t ht
      intro x hx
      rcases List.mem_cons.mp hx with hx | hx
      · subst hx
        simpa using hsp
      · exact hacc x hx

/-- Tokens of pySplit are nonempty and contain no whitespace. -/
lemma pySplit_mem (line : List Char) :
    ∀ t ∈ pySplit line, t ≠ [] ∧ ∀ c ∈ t, isPySpace c = false :=
  splitWsAux_mem line [] (by simp)

/-- On a nonempty token, Python isdigit is the all-digits test. -/
lemma pyIsdigit_of_ne_nil (t : List Char) (h : t ≠ []) :
    pyIsdigit t = t.all fun c => c.isDigit := by
  rw [pyIsdigit]
  have : t.isEmpty = false := by
    cases t with
    | nil => exact absurd rfl h
    | cons a t => rfl
  rw [this]
  rfl

/-- The loop of generate_def_content is an order-preserving filter-map. -/
lemma defBody_eq_filter (ls : List (List Char)) :
    defBody ls = (ls.filter qualifies).map symbolOf := by
  induction ls with
  | nil => rfl
  | cons l ls ih =>
    by_cases hq : qualifies l
    · simp [defBody, List.filter_cons, hq, ih]
    · simp [defBody, List.filter_cons, hq, ih]

/-- The code's qualification test agrees with the spec's wording: more
than 3 whitespace tokens and a first token made of decimal digits only. -/
lemma qualifies_eq_spec (l : List Char) :
    qualifies l =
      (decide (3 < (pySplit l).length) &&
        ((pySplit l).getD 0 []).all fun c => c.isDigit) := by
  rw [qualifies]
  by_cases h : 3 < (pySplit l).length
  · have hmem : (pySplit l).getD 0 [] ∈ pySplit l :=
      getD_mem _ 0 _ (Nat.lt_of_lt_of_le (by norm_num) (Nat.le_of_lt h))
    have hne : (pySplit l).getD 0 [] ≠ [] := (pySplit_mem l _ hmem).1
    rw [pyIsdigit_of_ne_nil _ hne]
  · simp [h]

/-- Members of the generated body are symbols of qualifying lines:
nonempty tokens without whitespace (in particular without newlines). -/
lemma defBody_mem (ls : List (List Char)) :
    ∀ t ∈ defBody ls, t ≠ [] ∧ ∀ c ∈ t, isPySpace c = false := by
  induction ls with
  | nil => simp [defBody]
  | cons l ls ih =>
    intro t ht
    by_cases hq : qualifies l
    · rw [defBody, if_pos hq] at ht
      rcases List.mem_cons.mp ht with ht | ht
      · subst ht
        have h3 : 3 < (pySplit l).length := by
          have := hq
          rw [qualifies] at this
          exact of_decide_eq_true (Bool.and_elim_left this)
        exact pySplit_mem l _ (getD_mem _ 3 _ h3)
      · exact ih t ht
    · rw [defBody, if_neg hq] at ht
      exact ih t ht

/-- If no line qualifies, the loop produces nothing. -/
lemma defBody_eq_nil (ls : List (List Char))
    (h : ∀ l ∈ ls, qualifies l = false) : defBody ls = [] := by
  induction ls with
  | nil => rfl
  | cons l ls ih =>
    rw [defBody, if_neg (by simp [h l (List.mem_cons_self l ls)]), ih]
    intro x hx
    exact h x (List.mem_cons_of_mem l hx)

lemma joinNL_ne_nil (x : List Char) (xs : List (List Char)) (hx : x ≠ []) :
    joinNL (x :: xs) ≠ [] := by
  cases xs with
  | nil => simpa [joinNL]
  | cons y ys => simp [joinNL]

/-- A newline-join of nonempty newline-free pieces does not end in a
newline. -/
lemma joinNL_getLast_ne (xs : List (List Char))
    (h : ∀ t ∈ xs, t ≠ [] ∧ '\n' ∉ t) (hxs : xs ≠ []) :
    (joinNL xs).getLast? ≠ some '\n' := by
  induction xs with
  | nil => exact absurd rfl hxs
  | cons x xs ih =>
    cases xs with
    | nil =>
      obtain ⟨hne, hnl⟩ := h x (List.mem_cons_self x [])
      rw [joinNL, List.getLast?_eq_getLast x hne]
      intro hc
      exact hnl (Option.some_injective _ hc ▸ List.getLast_mem hne)
    | cons y ys =>
      have hy : joinNL (y :: ys) ≠ [] :=
        joinNL_ne_nil y ys (h y (by simp)).1
      obtain ⟨z, zs, hz⟩ := List.exists_cons_of_ne_nil hy
      rw [show joinNL (x :: y :: ys) = x ++ '\n' :: joinNL (y :: ys) from
        rfl, List.getLast?_append_of_ne_nil x (by simp), hz,
        List.getLast?_cons_cons, ← hz]
      exact ih (fun t ht => h t (List.mem_cons_of_mem x ht))
        (List.cons_ne_nil y ys)

/-- Splitting a text of the form EXPORTS-newline-rest into lines peels
off the EXPORTS line. -/
lemma splitlines_exports_cons (rest : List Char) :
    splitlinesAux ("EXPORTS".data ++ '\n' :: rest) [] =
      "EXPORTS".data :: splitlinesAux rest [] := rfl

/-! ## Claim theorems about generate_def_content -/

/-- C1: for every dump-utility stdout text, a line contributes a symbol
to the export list iff splitting it on whitespace yields more than 3
tokens and its first token consists entirely of decimal digits; a
qualifying line contributes exactly the token at index 3, in input
order. -/
theorem generate_def_content_export_iff (s : String) :
    (generate_def_content s).data =
      joinNL ("EXPORTS".data :: specExportNames s) := by
  have hbody : defBody (pySplitlines s.data) = specExportNames s := by
    rw [defBody_eq_filter, specExportNames]
    have hf : (pySplitlines s.data).filter qualifies =
        (pySplitlines s.data).filter fun l =>
          decide (3 < (pySplit l).length) &&
            ((pySplit l).getD 0 []).all fun c => c.isDigit :=
      List.filter_congr fun l _ => qualifies_eq_spec l
    rw [hf]
    rfl
  rw [generate_def_content, hbody]

/-- C7: when zero lines of the dump output qualify, the generated
definition-file content is exactly the single line EXPORTS, and the
DEF-generation stage still succeeds (not an error). -/
theorem generate_def_content_no_qualifying (s : String)
    (h : ∀ l ∈ pySplitlines s.data, qualifies l = false) :
    generate_def_content s = "EXPORTS" ∧
      ∀ w : World, w.dumpbinOut = s → w.dumpbinOk = true →
        w.defWriteOk = true → (generate_def w).2 = true := by
  constructor
  · rw [generate_def_content, defBody_eq_nil _ h]
    rfl
  · intro w _ h1 h2
    rw [generate_def, if_pos h1, if_pos h2]

/-- C7 witness: the empty dump output has no qualifying line, yields
exactly EXPORTS, and the stage succeeds. -/
theorem generate_def_content_no_qualifying_w :
    generate_def_content "" = "EXPORTS" ∧
      ∀ w : World, w.dumpbinOut = "" → w.dumpbinOk = true →
        w.defWriteOk = true → (generate_def w).2 = true :=
  generate_def_content_no_qualifying "" (by decide)

/-- C8: the export list preserves input line order: when the qualifying
lines carry names A, B, C in that order, the generated content is
EXPORTS, A, B, C joined by newlines. -/
theorem generate_def_content_order (s A B C : String)
    (h : defBody (pySplitlines s.data) = [A.data, B.data, C.data]) :
    generate_def_content s = "EXPORTS\n" ++ A ++ "\n" ++ B ++ "\n" ++ C := by
  apply String.ext
  rw [generate_def_content, h]
  have e1 : "EXPORTS\n".data = "EXPORTS".data ++ ['\n'] := by decide
  have e2 : "\n".data = ['\n'] := by decide
  simp [joinNL, String.data_append, e1, e2]

/-- C8 witness: a dump output with ordinals 1, 2, 3 and names Alpha,
Beta, Gamma in that order yields those names in that order. -/
theorem generate_def_content_order_w :
    generate_def_content
        "ordinal hint RVA name\n1 0 00001000 Alpha\n2 1 00001010 Beta\n3 2 00001020 Gamma\n" =
      "EXPORTS\n" ++ "Alpha" ++ "\n" ++ "Beta" ++ "\n" ++ "Gamma" :=
  generate_def_content_order _ "Alpha" "Beta" "Gamma" (by decide)

/-- C10: for every input string, the generated content has EXPORTS as its
first line and does not end in a newline. -/
theorem generate_def_content_header (s : String) :
    (pySplitlines (generate_def_content s).data).head? =
        some ("EXPORTS".data) ∧
      ((generate_def_content s).data.getLast? = some '\n' → False) := by
  have hdata : (generate_def_content s).data =
      joinNL ("EXPORTS".data :: defBody (pySplitlines s.data)) := rfl
  constructor
  · rw [hdata]
    cases hb : defBody (pySplitlines s.data) with
    | nil => decide
    | cons b bs =>
      rw [
        show joinNL ("EXPORTS".data :: b :: bs) =
          "EXPORTS".data ++ '\n' :: joinNL (b :: bs) from rfl,
        pySplitlines, splitlines_exports_cons]
      rfl
  · intro hlast
    rw [hdata] at hlast
    have hmem : ∀ t ∈ "EXPORTS".data :: defBody (pySplitlines s.data),
        t ≠ [] ∧ '\n' ∉ t := by
      intro t ht
      rcases List.mem_cons.mp ht with ht | ht
      · subst ht
        exact ⟨by decide, by decide⟩
      · obtain ⟨hne, hws⟩ := defBody_mem _ t ht
        refine ⟨hne, fun hnl => ?_⟩
        have := hws '\n' hnl
        simp [isPySpace] at this
    exact joinNL_getLast_ne _ hmem (List.cons_ne_nil _ _) hlast

/-- C10 witness: at a concrete input, the first line is EXPORTS and the
content does not end in a newline. -/
theorem generate_def_content_header_w :
    (pySplitlines (generate_def_content "1 0 0 F\n").data).head? =
        some ("EXPORTS".data) ∧
      ((generate_def_content "1 0 0 F\n").data.getLast? = some '\n' →
        False) :=
  generate_def_content_header "1 0 0 F\n"

/-! ## Lemmas about the copy retry loop -/

/-- The retried copy with 5 attempts produces exactly the trace the spec
describes, for every pattern of attempt outcomes. -/
lemma copy_with_retry_five (ok : Nat → Bool) (src dst : String) :
    copy_with_retry ok src dst 5 = claimTrace ok src dst := by
  have hr : List.range' 1 5 = [1, 2, 3, 4, 5] := rfl
  rw [copy_with_retry, hr]
  cases h1 : ok 1 <;> cases h2 : ok 2 <;> cases h3 : ok 3 <;>
    cases h4 : ok 4 <;> cases h5 : ok 5 <;>
    simp [copyLoop, claimTrace, List.takeWhile, h1, h2, h3, h4, h5]

/-- Every event of the retried copy is a copy to its destination or a
sleep. -/
lemma copyLoop_mem (ok : Nat → Bool) (r : Nat) (src dst : String)
    (l : List Nat) :
    ∀ e ∈ (copyLoop ok r src dst l).1,
      (∃ b, e = Ev.copy2 src dst b) ∨ ∃ q, e = Ev.sleep q := by
  induction l with
  | nil => simp [copyLoop]
  | cons a rest ih =>
    intro e he
    rw [copyLoop] at he
    by_cases ha : ok a
    · rw [if_pos ha] at he
      rw [List.mem_singleton] at he
      exact Or.inl ⟨true, he⟩
    · rw [if_neg ha] at he
      by_cases hlt : a < r
      · rw [if_pos hlt] at he
        rcases List.mem_cons.mp he with he | he
        · exact Or.inl ⟨false, he⟩
        · rcases List.mem_cons.mp he with he | he
          · exact Or.inr ⟨_, he⟩
          · exact ih e he
      · rw [if_neg hlt] at he
        rw [List.mem_singleton] at he
        exact Or.inl ⟨false, he⟩

lemma succCopiesTo_append (d : String) (a b : List Ev) :
    succCopiesTo d (a ++ b) = succCopiesTo d a + succCopiesTo d b := by
  simp [succCopiesTo, List.filter_append]

/-- A successful retried copy lands exactly one file at its destination
(and none anywhere else). -/
lemma succCopiesTo_claimTrace (ok : Nat → Bool) (src dst dstq : String)
    (h : (claimTrace ok src dst).2 = true) :
    succCopiesTo dstq (claimTrace ok src dst).1 =
      if dst = dstq then 1 else 0 := by
  have hzero : ∀ l : List Nat,
      succCopiesTo dstq
        ((l.map fun a =>
          [Ev.copy2 src dst false, Ev.sleep (0.1 * a)]).flatten) = 0 := by
    intro l
    induction l with
    | nil => rfl
    | cons a rest ih => simpa [succCopiesTo, List.filter_cons] using ih
  by_cases hf : ([1, 2, 3, 4, 5].takeWhile fun a => ok a = false).length = 5
  · rw [claimTrace] at h
    rw [if_pos hf] at h
    simp at h
  · rw [claimTrace, if_neg hf] at h ⊢
    rw [succCopiesTo_append, hzero]
    by_cases hd : dst = dstq
    · simp [succCopiesTo, List.filter_cons, hd]
    · simp [succCopiesTo, List.filter_cons, hd]

/-- C2: the auxiliary copy tries up to exactly 5 times, sleeps
0.1 * attempt seconds after each failed non-final attempt (so 0.1, 0.2,
0.3, 0.4 between attempts 1-5) and re-raises only after the 5th failure;
the primary copy makes exactly one attempt and never sleeps or retries. -/
theorem copy_retry_primary_spec (ok : Nat → Bool) (src dst : String)
    (w : World) :
    copy_with_retry ok src dst 5 = claimTrace ok src dst ∧
      sleepSecsOf (copy_with_retry (fun _ => false) src dst 5).1 =
        [0.1, 0.2, 0.3, 0.4] ∧
      (copy_with_retry (fun _ => false) src dst 5).2 = false ∧
      ((copy_dll w).1.filter isCopyEv).length = 1 ∧
      (copy_dll w).1.filter isSleepEv = [] := by
  refine ⟨copy_with_retry_five ok src dst, ?_, ?_, ?_, ?_⟩
  · show List.filterMap _ _ = _
    norm_num [copy_with_retry, copyLoop, List.range', List.filterMap]
  · rfl
  · simp [copy_dll, isCopyEv, List.filter_cons]
  · simp [copy_dll, isSleepEv, List.filter_cons]

/-! ## Worlds used to instantiate theorems with hypotheses -/

/-- A world where the build subprocess succeeds but leaves no binary. -/
def noDllWorld : World := { allOkWorld with dllBuilt := false }

/-- A world without an initialized module. -/
def freshModWorld : World := { allOkWorld with goModExists := false }

/-- C5: when the library-build subprocess reports success but the
expected binary does not exist afterwards, the compiler stage is fatal,
and so is the whole build run. -/
theorem go_build_missing_dll_fatal (w : World) (h1 : w.goBuildOk = true)
    (h2 : w.dllBuilt = false) (hm : w.goModExists = true) :
    (go_build w).2 = false ∧ (build_all w).2 = false := by
  constructor
  · rw [go_build, if_pos h1, if_neg (by simp [h2])]
  · simp [build_all, go_mod_init, hm, go_build, h1, h2]

/-- C5 witness: concrete world with a successful build command and a
missing binary. -/
theorem go_build_missing_dll_fatal_w :
    (go_build noDllWorld).2 = false ∧ (build_all noDllWorld).2 = false :=
  go_build_missing_dll_fatal noDllWorld rfl rfl rfl

/-- C6: module initialization is idempotent: with the marker file
present it performs no action and leaves the world unchanged, and after
any successful invocation a second invocation runs no command. -/
theorem go_mod_init_idempotent (w : World) :
    (w.goModExists = true → go_mod_init w = ([], w, true)) ∧
      ((go_mod_init w).2.2 = true →
        runCmdsOf (go_mod_init (go_mod_init w).2.1).1 = []) := by
  constructor
  · intro h
    rw [go_mod_init, if_pos h]
  · intro h
    by_cases hm : w.goModExists
    · simp [go_mod_init, hm, runCmdsOf]
    · by_cases hok : w.goModInitOk
      · simp [go_mod_init, hm, hok, runCmdsOf]
      · simp [go_mod_init, hm, hok] at h

/-- C6 witness: with the marker present the call is a no-op, and a
successful first call starting without the marker is followed by a
command-free second call. -/
theorem go_mod_init_idempotent_w :
    go_mod_init allOkWorld = ([], allOkWorld, true) ∧
      runCmdsOf (go_mod_init (go_mod_init freshModWorld).2.1).1 = [] :=
  ⟨(go_mod_init_idempotent allOkWorld).1 rfl,
    (go_mod_init_idempotent freshModWorld).2 rfl⟩

/-! ## Lemmas about the cleaner -/

lemma cleanLoop_eq (w : World) (ps : List String) :
    cleanLoop w ps =
      (ps.filter w.fileExists).map fun p => Ev.unlink p (w.unlinkOk p) := by
  induction ps with
  | nil => rfl
  | cons p rest ih =>
    by_cases hp : w.fileExists p
    · simp [cleanLoop, List.filter_cons, hp, ih]
    · simp [cleanLoop, List.filter_cons, hp, ih]

/-- C4: the cleaner attempts deletion of each existing artifact
independently of the outcome of the other deletions, always invokes the
downstream clean command afterwards, and is fatal exactly when that
command fails. -/
theorem clean_independent_deletions (w : World) :
    (clean w).1.filter isUnlinkEv =
        (([EXPORT_DLL, EXPORT_DEF, EXPORT_LIB].filter w.fileExists).map
          fun p => Ev.unlink p (w.unlinkOk p)) ∧
      Ev.runCmd ["cargo", "clean"] ∈ (clean w).1 ∧
      ((clean w).2 = false ↔ w.cargoCleanOk = false) := by
  refine ⟨?_, ?_, ?_⟩
  · rw [clean, List.filter_append, cleanLoop_eq, List.filter_map]
    have h1 : (List.filter (isUnlinkEv ∘ fun p =>
        Ev.unlink p (w.unlinkOk p))
          ([EXPORT_DLL, EXPORT_DEF, EXPORT_LIB].filter w.fileExists)) =
        [EXPORT_DLL, EXPORT_DEF, EXPORT_LIB].filter w.fileExists := by
      apply List.filter_eq_self.mpr
      intro p _
      rfl
    rw [h1]
    simp [isUnlinkEv]
  · rw [clean]
    exact List.mem_append_right _ (List.mem_singleton.mpr rfl)
  · rw [clean]

/-! ## No build-mode stage ever deletes; the cleaner only deletes and
runs the downstream clean -/

lemma ensure_dirs_no_unlink (w : World) :
    (ensure_dirs w).1.filter isUnlinkEv = [] := by
  rw [ensure_dirs]
  split_ifs <;> simp [isUnlinkEv]

lemma go_mod_init_no_unlink (w : World) :
    (go_mod_init w).1.filter isUnlinkEv = [] := by
  rw [go_mod_init]
  split_ifs <;> simp [isUnlinkEv]

lemma go_build_no_unlink (w : World) :
    (go_build w).1.filter isUnlinkEv = [] := by
  rw [go_build]
  split_ifs <;> simp [isUnlinkEv]

lemma generate_def_no_unlink (w : World) :
    (generate_def w).1.filter isUnlinkEv = [] := by
  rw [generate_def]
  split_ifs <;> simp [isUnlinkEv]

lemma generate_lib_no_unlink (w : World) :
    (generate_lib w).1.filter isUnlinkEv = [] := by
  simp [generate_lib, isUnlinkEv]

lemma copy_dll_no_unlink (w : World) :
    (copy_dll w).1.filter isUnlinkEv = [] := by
  simp [copy_dll, isUnlinkEv, List.filter_cons]

lemma copyLoop_no_unlink (ok : Nat → Bool) (r : Nat) (src dst : String)
    (l : List Nat) : (copyLoop ok r src dst l).1.filter isUnlinkEv = [] := by
  rw [List.filter_eq_nil_iff]
  intro e he
  rcases copyLoop_mem ok r src dst l e he with ⟨b, rfl⟩ | ⟨q, rfl⟩ <;>
    simp [isUnlinkEv]

lemma copyTestLoop_no_unlink (w : World) (ds : List String) :
    (copyTestLoop w ds).1.filter isUnlinkEv = [] := by
  induction ds with
  | nil => rfl
  | cons d rest ih =>
    simp only [copyTestLoop]
    split_ifs <;>
      simp [List.filter_cons, List.filter_append, isUnlinkEv,
        copy_with_retry, copyLoop_no_unlink, ih]

lemma build_all_no_unlink (w : World) :
    (build_all w).1.filter isUnlinkEv = [] := by
  simp only [build_all]
  split_ifs <;>
    simp [List.filter_append, ensure_dirs_no_unlink, go_mod_init_no_unlink,
      go_build_no_unlink, generate_def_no_unlink, generate_lib_no_unlink,
      copy_dll_no_unlink, copy_dll_to_test_dir, copyTestLoop_no_unlink]

/-- The cleaner invokes exactly one command: cargo clean. -/
lemma runCmdsOf_clean (w : World) :
    runCmdsOf (clean w).1 = [["cargo", "clean"]] := by
  rw [clean, runCmdsOf, List.filterMap_append, cleanLoop_eq,
    List.filterMap_map]
  have h1 : List.filterMap
      ((fun e => match e with | Ev.runCmd c => some c | _ => none) ∘
        fun p => Ev.unlink p (w.unlinkOk p))
      ([EXPORT_DLL, EXPORT_DEF, EXPORT_LIB].filter w.fileExists) = [] := by
    rw [List.filterMap_eq_nil_iff]
    intro p _
    rfl
  rw [h1]
  rfl

/-- Cleaner events satisfying a predicate that rejects unlinks and the
cargo clean command: none. -/
lemma clean_filter_not (w : World) (p : Ev → Bool)
    (hu : ∀ s b, p (Ev.unlink s b) = false)
    (hr : p (Ev.runCmd ["cargo", "clean"]) = false) :
    (clean w).1.filter p = [] := by
  rw [clean, List.filter_append, cleanLoop_eq, List.filter_map]
  have h1 : List.filter (p ∘ fun q => Ev.unlink q (w.unlinkOk q))
      ([EXPORT_DLL, EXPORT_DEF, EXPORT_LIB].filter w.fileExists) = [] := by
    rw [List.filter_eq_nil_iff]
    intro q _
    simp [hu]
  rw [h1]
  simp [List.filter_cons, hr]

/-- C3: the two entry modes are mutually exclusive: build mode performs
no deletion at all, and clean mode runs no command but cargo clean and
performs no copy, no directory creation and no file write. -/
theorem modes_mutually_exclusive (w : World) :
    (main w false).1.filter isUnlinkEv = [] ∧
      runCmdsOf (main w true).1 = [["cargo", "clean"]] ∧
      (main w true).1.filter isCopyEv = [] ∧
      (main w true).1.filter isMkdirEv = [] ∧
      (main w true).1.filter isWriteEv = [] := by
  refine ⟨?_, ?_, ?_, ?_, ?_⟩
  · rw [show main w false = build_all w from rfl]
    exact build_all_no_unlink w
  · rw [show main w true = clean w from rfl]
    exact runCmdsOf_clean w
  · exact clean_filter_not w isCopyEv (fun _ _ => rfl) rfl
  · exact clean_filter_not w isMkdirEv (fun _ _ => rfl) rfl
  · exact clean_filter_not w isWriteEv (fun _ _ => rfl) rfl

/-! ## Counting successful copies to the primary destination -/

lemma succCopies_ensure (d : String) (w : World) :
    succCopiesTo d (ensure_dirs w).1 = 0 := by
  rw [ensure_dirs]
  split_ifs <;> rfl

lemma succCopies_gmi (d : String) (w : World) :
    succCopiesTo d (go_mod_init w).1 = 0 := by
  rw [go_mod_init]
  split_ifs <;> rfl

lemma succCopies_gobuild (d : String) (w : World) :
    succCopiesTo d (go_build w).1 = 0 := by
  rw [go_build]
  split_ifs <;> rfl

lemma succCopies_gendef (d : String) (w : World) :
    succCopiesTo d (generate_def w).1 = 0 := by
  rw [generate_def]
  split_ifs <;> rfl

lemma succCopies_genlib (d : String) (w : World) :
    succCopiesTo d (generate_lib w).1 = 0 := rfl

/-- The primary copy, when it succeeds, is one successful copy to
TARGET_DLL. -/
lemma succCopies_copy_dll (w : World) (hp : w.primaryCopyOk = true) :
    succCopiesTo TARGET_DLL (copy_dll w).1 = 1 := by
  simp [copy_dll, succCopiesTo, List.filter_cons, hp]

lemma succCopiesTo_mkdirp (d s : String) (l : List Ev) :
    succCopiesTo d (Ev.mkdirp s :: l) = succCopiesTo d l := by
  simp [succCopiesTo, List.filter_cons]

/-- A successful auxiliary distribution writes TARGET_DLL exactly once:
the first test directory is a different destination, the second is
TARGET_DIR itself. -/
lemma succCopies_testdirs (w : World)
    (h : (copy_dll_to_test_dir w).2 = true) :
    succCopiesTo TARGET_DLL (copy_dll_to_test_dir w).1 = 1 := by
  simp only [copy_dll_to_test_dir, TEST_DIRS, copyTestLoop,
    copy_with_retry_five] at h ⊢
  split_ifs at h ⊢ with hr1 hr2
  · have e1 := succCopiesTo_claimTrace (w.auxCopyOk "target/debug/deps")
      EXPORT_DLL ("target/debug/deps" ++ "/" ++ EXPORT_NAME ++ ".dll")
      TARGET_DLL hr1
    have e2 := succCopiesTo_claimTrace (w.auxCopyOk "target/debug")
      EXPORT_DLL ("target/debug" ++ "/" ++ EXPORT_NAME ++ ".dll")
      TARGET_DLL hr2
    rw [if_neg (by decide)] at e1
    rw [if_pos (by decide)] at e2
    have e1x : succCopiesTo TARGET_DLL
        (claimTrace (w.auxCopyOk "target/debug/deps") EXPORT_DLL
          ("target/debug/deps/" ++ EXPORT_NAME ++ ".dll")).1 = 0 := e1
    have e2x : succCopiesTo TARGET_DLL
        (claimTrace (w.auxCopyOk "target/debug") EXPORT_DLL
          ("target/debug/" ++ EXPORT_NAME ++ ".dll")).1 = 1 := e2
    simp [succCopiesTo_mkdirp, succCopiesTo_append]
    omega

/-- C9: the second auxiliary output directory is the primary output
directory, so a successful build writes the binary at the primary
destination twice: once by the fail-fast primary copy and once by the
retried auxiliary copy. -/
theorem aux_dir_duplicates_primary (w : World)
    (h : (build_all w).2 = true) :
    TEST_DIRS.getD 1 "" = TARGET_DIR ∧
      succCopiesTo TARGET_DLL (build_all w).1 = 2 := by
  refine ⟨rfl, ?_⟩
  simp only [build_all] at h ⊢
  split_ifs at h ⊢ with h1 h2 h3 h4 h5
  · have hp : ((go_mod_init w).2.1).primaryCopyOk = true := h5
    simp [succCopiesTo_append, succCopies_ensure, succCopies_gmi,
      succCopies_gobuild, succCopies_gendef, succCopies_genlib,
      succCopies_copy_dll _ hp, succCopies_testdirs _ h]

/-- C9 witness: in a fully cooperative world the build succeeds and the
primary destination receives exactly two successful copies. -/
theorem aux_dir_duplicates_primary_w :
    TEST_DIRS.getD 1 "" = TARGET_DIR ∧
      succCopiesTo TARGET_DLL (build_all allOkWorld).1 = 2 :=
  aux_dir_duplicates_primary allOkWorld (by decide)

end BuildPy
